import Mathlib

/-!
Verification of the data-normalization and season-bucketing pipeline of the
`pastseason-hk` inventory dashboard (TypeScript sources in `src/utils.ts`,
`src/types.ts`, `src/OffSeasonInventoryDashboard.tsx`, `src/App.tsx`).

Modelling conventions:
* JavaScript IEEE-754 numbers are modelled as exact rationals (`ℚ`); the
  numeric claims under scrutiny are about the algebraic form of the
  computations (rate tables, division, `1 - net/gross`), not float rounding.
* JavaScript `string | null | undefined` parameters are modelled as
  `Option String`; `null` and `undefined` both map to `none`.
* A JavaScript `Record<string, string>` row object is modelled as an
  association list in insertion (header) order.
* All definitions are computable and mirror the TypeScript control flow.
-/

namespace PastSeason

/-- Source-year tag: `"PY" | "CY"` in `types.ts`. -/
inductive SourceYearType where
  | PY
  | CY
  deriving DecidableEq, Repr

/-- Season type: `"FW" | "S" | "ACC" | "OTHER"` in `types.ts`. -/
inductive SeasonType where
  | FW
  | S
  | ACC
  | OTHER
  deriving DecidableEq, Repr

/-- Year bucket: `"InSeason" | "Y1" | "Y2" | "Y3Plus"` in `types.ts`. -/
inductive YearBucket where
  | InSeason
  | Y1
  | Y2
  | Y3Plus
  deriving DecidableEq, Repr

/-- `SeasonInfo` record from `types.ts`. -/
structure SeasonInfo where
  seasonCode : String
  seasonType : SeasonType
  seasonYear : Option Int
  yearBucket : YearBucket
  deriving DecidableEq, Repr

/-- Decimal value of a digit list, as `parseInt(s, 10)` computes it on an
all-digit string (`"007"` gives `7`). -/
def digitsToNat (cs : List Char) : Nat :=
  cs.foldl (fun a c => a * 10 + (c.toNat - 48)) 0

/-- JS `String.prototype.trim()`: strip leading and trailing whitespace.
(Defined over the character list so that it evaluates by reduction;
`String.trim` from core does not.) -/
def jsTrim (s : String) : String :=
  ⟨((s.data.dropWhile Char.isWhitespace).reverse.dropWhile Char.isWhitespace).reverse⟩

/-- JS `code.slice(-1)` on a string known to be nonempty: its last character
(the space character is the arbitrary value returned on an empty string,
a case every caller has already excluded). -/
def jsLastChar (s : String) : Char :=
  s.data.getLastD ' '

/-- JS `code.slice(0, -1)`: everything but the last character. -/
def jsDropLast (s : String) : String :=
  ⟨s.data.dropLast⟩

/-- JS `String.prototype.toUpperCase()` (ASCII model). -/
def jsToUpper (s : String) : String :=
  ⟨s.data.map Char.toUpper⟩

/-- The bucket assignment of `parseSeason`, `utils.ts` lines 106-120: the
`if (seasonType === 'FW' && year !== null)` guard with the `diff` chain
inside, and `InSeason` in every other case. -/
def computeBucket (seasonType : SeasonType) (year : Option Int) (currentFwYear : Int) :
    YearBucket :=
  match seasonType, year with
  | .FW, some y =>
    let diff := currentFwYear - y
    if diff ≤ 0 then .InSeason
    else if diff = 1 then .Y1
    else if diff = 2 then .Y2
    else .Y3Plus
  | _, _ => .InSeason

/-- `parseSeason` from `utils.ts` (lines 86-128): trim the raw code; empty
gives OTHER/null/InSeason; otherwise the last character picks the type, the
leading characters give the year when entirely digits (`/^\d+$/`), and the
bucket is computed from `diff = currentFwYear - year` only in the FW,
non-null-year case. -/
def parseSeason (seasonCodeRaw : Option String) (currentFwYear : Int) : SeasonInfo :=
  let seasonCode := jsTrim (seasonCodeRaw.getD "")
  if seasonCode = "" then
    { seasonCode := "", seasonType := .OTHER, seasonYear := none, yearBucket := .InSeason }
  else
    let suffix := jsLastChar seasonCode
    let yearPart := jsDropLast seasonCode
    let year : Option Int :=
      if yearPart ≠ "" ∧ yearPart.toList.all Char.isDigit then
        some (digitsToNat yearPart.toList : Int)
      else none
    let seasonType : SeasonType :=
      if suffix = 'F' then .FW
      else if suffix = 'S' then .S
      else if suffix = 'N' then .ACC
      else .OTHER
    { seasonCode := seasonCode, seasonType := seasonType, seasonYear := year,
      yearBucket := computeBucket seasonType year currentFwYear }

/-- The spec's reference definition of the season classifier, read literally
from its words: "an empty or absent code yields type Other, null year, and
bucket current/in-season; otherwise the last character determines the type
... the remaining leading characters parse to an integer year when entirely
digits ... current/in-season if `currentFiscalYear - year <= 0`, one-year-past
if the difference is 1, two-years-past if it is 2, and three-plus-years-past
if it is 3 or more".  No whitespace trimming is mentioned, so none is
performed here. -/
def parseSeasonSpecLiteral (code : Option String) (refYear : Int) : SeasonInfo :=
  let c := code.getD ""
  if c = "" then
    { seasonCode := "", seasonType := .OTHER, seasonYear := none, yearBucket := .InSeason }
  else
    let t : SeasonType :=
      if jsLastChar c = 'F' then .FW
      else if jsLastChar c = 'S' then .S
      else if jsLastChar c = 'N' then .ACC
      else .OTHER
    let yp := jsDropLast c
    let yr : Option Int :=
      if yp ≠ "" ∧ yp.toList.all Char.isDigit then some (digitsToNat yp.toList : Int)
      else none
    let bucket : YearBucket :=
      match t, yr with
      | .FW, some y =>
        if 3 ≤ refYear - y then .Y3Plus
        else if refYear - y = 2 then .Y2
        else if refYear - y = 1 then .Y1
        else .InSeason
      | _, _ => .InSeason
    { seasonCode := c, seasonType := t, seasonYear := yr, yearBucket := bucket }

/-- The spec's reference definition amended with the one fact the code adds:
the raw code is whitespace-trimmed before any of the spec's case analysis,
and the trimmed code is the one stored.  Everything after the trim follows
the spec's sentences (the bucket cases are listed from the "3 or more" side,
as disjoint cases, exactly as the spec enumerates them). -/
def parseSeasonSpecTrimmed (code : Option String) (refYear : Int) : SeasonInfo :=
  parseSeasonSpecLiteral (some (jsTrim (code.getD ""))) refYear

/-- `isOffSeasonFW` from `utils.ts` (lines 185-191), on the `seasonInfo` the
row carries. -/
def isOffSeasonFW (info : SeasonInfo) : Bool :=
  info.seasonType == .FW &&
    (info.yearBucket == .Y1 || info.yearBucket == .Y2 || info.yearBucket == .Y3Plus)

/-- Characters removed by `parseNumber`'s cleanup
`value.trim().replace(/,/g, '').replace(/\s+/g, '')`: after the trim, every
comma and every whitespace character is deleted (the two global replaces
commute, so a single filter is equivalent). -/
def cleanNumeric (s : String) : String :=
  ⟨(jsTrim s).data.filter (fun c => !(c == ',' || c.isWhitespace))⟩

/-- The digit structure `parseFloat` extracts from a character list:
optional leading whitespace, optional sign, integer digits, optional `.` and
fraction digits (at least one digit required overall), optional exponent
`e`/`E` with optional sign and digits (an exponent marker without digits is
not consumed, as in `parseFloat("1e")`).  The result is the signed mantissa
read as one integer (integer digits followed by fraction digits), the number
of fraction digits, and the exponent; `none` models NaN. -/
def parseFloatParts (input : List Char) : Option (Int × Nat × Int) :=
  let cs := input.dropWhile Char.isWhitespace
  let signAndRest : Int × List Char :=
    match cs with
    | '-' :: rest => (-1, rest)
    | '+' :: rest => (1, rest)
    | _ => (1, cs)
  let sign := signAndRest.1
  let cs1 := signAndRest.2
  let intDigits := cs1.takeWhile Char.isDigit
  let afterInt := cs1.dropWhile Char.isDigit
  let fracAndRest : List Char × List Char :=
    match afterInt with
    | '.' :: rest => (rest.takeWhile Char.isDigit, rest.dropWhile Char.isDigit)
    | _ => ([], afterInt)
  let fracDigits := fracAndRest.1
  let afterFrac := fracAndRest.2
  if intDigits.isEmpty ∧ fracDigits.isEmpty then none
  else
    let expDigits : Int × List Char :=
      match afterFrac with
      | 'e' :: '-' :: r => (-1, r.takeWhile Char.isDigit)
      | 'e' :: '+' :: r => (1, r.takeWhile Char.isDigit)
      | 'e' :: r => (1, r.takeWhile Char.isDigit)
      | 'E' :: '-' :: r => (-1, r.takeWhile Char.isDigit)
      | 'E' :: '+' :: r => (1, r.takeWhile Char.isDigit)
      | 'E' :: r => (1, r.takeWhile Char.isDigit)
      | _ => (1, [])
    let expVal : Int :=
      if expDigits.2.isEmpty then 0 else expDigits.1 * (digitsToNat expDigits.2 : Int)
    some (sign * (digitsToNat (intDigits ++ fracDigits) : Int), fracDigits.length, expVal)

/-- JS `parseFloat` on a numeric-literal prefix, with exact rational value
`mantissa / 10 ^ fracLen * 10 ^ exponent`; `none` models NaN.  The special
literal `Infinity`, which JS `parseFloat` accepts, has no rational value and
is treated as unparseable here; no input of this repository produces it. -/
def parseFloatQ (s : String) : Option ℚ :=
  (parseFloatParts s.data).map
    (fun p => (p.1 : ℚ) / (10 : ℚ) ^ p.2.1 * (10 : ℚ) ^ p.2.2)

/-- `parseNumber` from `utils.ts` (lines 6-11): `null`/`undefined`/`""` are
falsy and give 0; otherwise the value is cleaned (trim, drop commas, drop
whitespace) and parsed with `parseFloat`; `NaN` gives 0.  Total by
construction: it returns a value for every input and cannot throw. -/
def parseNumber (value : Option String) : ℚ :=
  match value with
  | none => 0
  | some s =>
    if s = "" then 0
    else
      match parseFloatQ (cleanNumeric s) with
      | none => 0
      | some q => q

/-- `parseString` from `utils.ts` (lines 16-18): `(value ?? '').trim()`. -/
def parseString (value : Option String) : String :=
  jsTrim (value.getD "")

/-- JS `parseInt(s, 10)`: skip leading whitespace, optional sign, then the
longest digit prefix; `none` models NaN (no digits). -/
def jsParseInt (s : String) : Option Int :=
  let cs := s.data.dropWhile Char.isWhitespace
  let signAndRest : Int × List Char :=
    match cs with
    | '-' :: rest => (-1, rest)
    | '+' :: rest => (1, rest)
    | _ => (1, cs)
  let digits := signAndRest.2.takeWhile Char.isDigit
  if digits.isEmpty then none
  else some (signAndRest.1 * (digitsToNat digits : Int))

/-- JS `s.substring(0, 2)`: the first two characters (fewer if shorter). -/
def jsTake2 (s : String) : String :=
  ⟨s.data.take 2⟩

/-- JS `a || b` on possibly-undefined strings: the first operand unless it is
falsy (`undefined` or `""`), else the second. -/
def jsOr (a b : Option String) : Option String :=
  match a with
  | none => b
  | some s => if s = "" then b else some s

/-- One tokenized CSV field list: `parseCSVLine` from `utils.ts` (lines
196-223).  State: current character list, `inQuotes` flag, the value built so
far, the values emitted so far.  A doubled `"` inside quotes emits a literal
quote and skips the lookahead character; `,` outside quotes ends the current
value (pushed trimmed); every other character is appended. -/
def parseCSVLineAux : List Char → Bool → String → List String → List String
  | [], _, cur, acc => acc ++ [jsTrim cur]
  | '"' :: '"' :: rest, true, cur, acc => parseCSVLineAux rest true (cur.push '"') acc
  | '"' :: rest, inQuotes, cur, acc => parseCSVLineAux rest (!inQuotes) cur acc
  | ',' :: rest, true, cur, acc => parseCSVLineAux rest true (cur.push ',') acc
  | ',' :: rest, false, cur, acc => parseCSVLineAux rest false "" (acc ++ [jsTrim cur])
  | c :: rest, inQuotes, cur, acc => parseCSVLineAux rest inQuotes (cur.push c) acc

/-- `parseCSVLine(line)` from `utils.ts`. -/
def parseCSVLine (line : String) : List String :=
  parseCSVLineAux line.data false "" []

/-- The row-object construction of `parseCSV` (`utils.ts` lines 288-291):
`cleanedHeaders.forEach((header, index) => row[header] = values[index] ?? '')`.
A JS object holds one binding per key; with the distinct headers of these
files the object is exactly this association list in header order, each
header mapped to its positional value or `""`; values beyond the header
count are never read. -/
def buildRow : List String → List String → List (String × String)
  | [], _ => []
  | h :: hs, [] => (h, "") :: buildRow hs []
  | h :: hs, v :: vs => (h, v) :: buildRow hs vs

/-- The data-row stage of `parseCSV` (`utils.ts` lines 278-297): for each
line after the header block, trim it, skip it when blank, tokenize it, and
keep it only when `values.length >= cleanedHeaders.length - 1` (JS number
arithmetic, hence the `Int` comparison); kept rows become header-keyed
mappings.  Dropped rows produce nothing — no error value exists. -/
def csvDataRows (cleanedHeaders : List String) (lines : List String) :
    List (List (String × String)) :=
  lines.filterMap (fun l =>
    let line := jsTrim l
    if line = "" then none
    else
      let values := parseCSVLine line
      if (cleanedHeaders.length : Int) - 1 ≤ (values.length : Int) then
        some (buildRow cleanedHeaders values)
      else none)

/-- A `Record<string, string>` row object, as an association list in header
order; a missing key reads as `undefined` (`none`). -/
abbrev RecordRow := List (String × String)

/-- JS property read `row[key]` on a row object. -/
def jsGet (row : RecordRow) (key : String) : Option String :=
  row.lookup key

/-- `InventoryRowRaw` from `types.ts`, monetary and quantity fields as exact
rationals. -/
structure InventoryRowRaw where
  period : String
  country : String
  exRate : ℚ
  itemCode : String
  itemDesc1 : String
  itemDesc2 : Option String
  storeCode : String
  storeName : String
  salesDiv : String
  season : String
  brand : String
  brandName : String
  category : String
  categoryName : String
  subcategory : String
  subcategoryName : String
  salesQty : ℚ
  acSalesQty : ℚ
  stockQty : ℚ
  netAcPC : ℚ
  netAcPP : ℚ
  acSalesCost : ℚ
  acSalesNetAmount : ℚ
  acSalesGross : ℚ
  grossSalesMonth : ℚ
  netSalesMonth : ℚ
  cogsMonth : ℚ
  stockCost : ℚ
  stockPriceTag : ℚ
  sourceYearType : SourceYearType
  deriving DecidableEq, Repr

/-- `InventoryRow` from `types.ts`: the raw record (`...row` spread) plus the
FX rate, the nine normalized fields, the nullable discount rate, and the
season info — exactly the fields this structure adds. -/
structure InventoryRow extends InventoryRowRaw where
  fxRate : ℚ
  grossSalesFx : ℚ
  netSalesFx : ℚ
  stockPriceFx : ℚ
  stockCostFx : ℚ
  acSalesGrossFx : ℚ
  netAcPPFx : ℚ
  acSalesCostFx : ℚ
  acSalesNetAmountFx : ℚ
  cogsFx : ℚ
  discountRateMonth : Option ℚ
  seasonInfo : SeasonInfo
  deriving DecidableEq, Repr

/-- `parseCSVRow` from `utils.ts` (lines 23-81): decode one header-keyed row
mapping into an `InventoryRowRaw`, with the three `AC Sales` columns read
through the `||` chains over their line-break spelling variants. -/
def parseCSVRow (row : RecordRow) (sourceYearType : SourceYearType) : InventoryRowRaw :=
  let country := jsToUpper (parseString (jsGet row "Country"))
  { period := parseString (jsGet row "period")
    country := country
    exRate := parseNumber (jsGet row "Ex-rate")
    itemCode := parseString (jsGet row "ITEM CODE")
    itemDesc1 := parseString (jsGet row "ITEM DESC1")
    itemDesc2 :=
      (let d := parseString (jsGet row "ITEM DESC2")
       if d = "" then none else some d)
    storeCode := parseString (jsGet row "STORE")
    storeName := parseString (jsGet row "STORE NAME")
    salesDiv := parseString (jsGet row "SALES DIV")
    season := parseString (jsGet row "SEASON")
    brand := parseString (jsGet row "BRAND")
    brandName := parseString (jsGet row "BRAND NAME")
    category := parseString (jsGet row "CATEGORY")
    categoryName := parseString (jsGet row "CATEGORY NAME")
    subcategory := parseString (jsGet row "SUBCATEGORY")
    subcategoryName := parseString (jsGet row "SUBCATEGORY NAME")
    salesQty := parseNumber (jsGet row "Sales (Qty)")
    acSalesQty := parseNumber (jsGet row "AC Sales (Qty)")
    stockQty := parseNumber (jsGet row "Stock (Qty)")
    netAcPC := parseNumber (jsGet row "Net AcP.C")
    netAcPP := parseNumber (jsGet row "Net AcP.P")
    acSalesCost := parseNumber
      (jsOr (jsOr (jsGet row "AC Sales\n(Cost)") (jsGet row "AC Sales (Cost)"))
        (jsGet row "AC Sales\r\n(Cost)"))
    acSalesNetAmount := parseNumber
      (jsOr (jsOr (jsGet row "AC Sales\n(Net Amount)") (jsGet row "AC Sales (Net Amount)"))
        (jsGet row "AC Sales\r\n(Net Amount)"))
    acSalesGross := parseNumber
      (jsOr (jsOr (jsGet row "AC Sales\n(Gross Sales)") (jsGet row "AC Sales (Gross Sales)"))
        (jsGet row "AC Sales\r\n(Gross Sales)"))
    grossSalesMonth := parseNumber (jsGet row "Gross Sales ($)")
    netSalesMonth := parseNumber (jsGet row "Net Sales ($)")
    cogsMonth := parseNumber (jsGet row "COGS ($)")
    stockCost := parseNumber (jsGet row "Stock Cost ($)")
    stockPriceTag := parseNumber (jsGet row "Stock Price ($)")
    sourceYearType := sourceYearType }

/-- The fixed FX rate table of `applyFxNormalization` (`utils.ts` lines
135-143): `HK → 1`, `MC → 1.03`, `TW → 4.02`, anything else keeps the
initial 1. -/
def fxRateFor (country : String) : ℚ :=
  if country = "HK" then 1
  else if country = "MC" then 1.03
  else if country = "TW" then 4.02
  else 1

/-- The `applyFx` closure (`utils.ts` lines 146-149): HK passes through,
every other country divides by the resolved rate. -/
def applyFxValue (country : String) (fxRate : ℚ) (value : ℚ) : ℚ :=
  if country = "HK" then value else value / fxRate

/-- `applyFxNormalization` from `utils.ts` (lines 133-178): spread the raw
row, add the resolved rate, the nine normalized fields, the discount rate
(`null` unless normalized gross sales is strictly positive), and the season
info. -/
def applyFxNormalization (row : InventoryRowRaw) (seasonInfo : SeasonInfo) : InventoryRow :=
  let country := row.country
  let fxRate := fxRateFor country
  let grossSalesFx := applyFxValue country fxRate row.grossSalesMonth
  let netSalesFx := applyFxValue country fxRate row.netSalesMonth
  let discountRateMonth : Option ℚ :=
    if 0 < grossSalesFx then some (1 - netSalesFx / grossSalesFx) else none
  { row with
    fxRate := fxRate
    grossSalesFx := grossSalesFx
    netSalesFx := netSalesFx
    stockPriceFx := applyFxValue country fxRate row.stockPriceTag
    stockCostFx := applyFxValue country fxRate row.stockCost
    acSalesGrossFx := applyFxValue country fxRate row.acSalesGross
    netAcPPFx := applyFxValue country fxRate row.netAcPP
    acSalesCostFx := applyFxValue country fxRate row.acSalesCost
    acSalesNetAmountFx := applyFxValue country fxRate row.acSalesNetAmount
    cogsFx := applyFxValue country fxRate row.cogsMonth
    discountRateMonth := discountRateMonth
    seasonInfo := seasonInfo }

/-- Row-level `isOffSeasonFW`, as called on normalized rows. -/
def isOffSeasonFWRow (row : InventoryRow) : Bool :=
  isOffSeasonFW row.seasonInfo

/-- `GraphDataRowRaw` from `types.ts`. -/
structure GraphDataRowRaw where
  Period : String
  Year : String
  Season_Code : String
  Gross_Sales : ℚ
  Net_Sales : ℚ
  Stock_Price : ℚ
  Stock_Cost : ℚ
  Country : String
  deriving DecidableEq, Repr

/-- `GraphDataRow` from `types.ts`: the raw record plus derived fields. -/
structure GraphDataRow extends GraphDataRowRaw where
  period : String
  year : Int
  seasonCode : String
  grossSalesFx : ℚ
  netSalesFx : ℚ
  stockPriceFx : ℚ
  stockCostFx : ℚ
  country : String
  seasonInfo : SeasonInfo
  discountRate : Option ℚ
  deriving DecidableEq, Repr

/-- `normalizeGraphDataRow` from `utils.ts` (lines 378-444): infer the year
from `Period.substring(0, 2)` (falling back to the `Year` column and then to
2025), pick the reference fiscal year 24 exactly when that two-character
prefix parses to 24 and 25 otherwise, FX-normalize the four monetary fields
with the same rate table, classify the season code against that reference
year, and derive the discount rate. -/
def normalizeGraphDataRow (raw : GraphDataRowRaw) : GraphDataRow :=
  let country := raw.Country
  let periodYear : Option Int := jsParseInt (jsTake2 raw.Period)
  let year : Int :=
    match periodYear with
    | some p =>
      if 24 ≤ p ∧ p ≤ 99 then 2000 + p
      else if 0 ≤ p ∧ p < 24 then 2000 + p
      else
        match jsParseInt raw.Year with
        | some y => if y = 0 then 2025 else y
        | none => 2025
    | none =>
      match jsParseInt raw.Year with
      | some y => if y = 0 then 2025 else y
      | none => 2025
  let currentFwYear : Int := if periodYear = some 24 then 24 else 25
  let fxRate := fxRateFor country
  let grossSalesFx := applyFxValue country fxRate raw.Gross_Sales
  let netSalesFx := applyFxValue country fxRate raw.Net_Sales
  let seasonInfo := parseSeason (some raw.Season_Code) currentFwYear
  let discountRate : Option ℚ :=
    if 0 < grossSalesFx then some (1 - netSalesFx / grossSalesFx) else none
  { toGraphDataRowRaw := raw
    period := raw.Period
    year := year
    seasonCode := raw.Season_Code
    grossSalesFx := grossSalesFx
    netSalesFx := netSalesFx
    stockPriceFx := applyFxValue country fxRate raw.Stock_Price
    stockCostFx := applyFxValue country fxRate raw.Stock_Cost
    country := country
    seasonInfo := seasonInfo
    discountRate := discountRate }

/-- One row of the inventory load loops: decode (`parseCSVRow` with the
source-year tag), classify the decoded `season` field against the given
reference fiscal year, normalize FX.  This body is shared verbatim by the
four loops in `loadAndNormalizeData` (`utils.ts` lines 329-350) and
`loadData` (`OffSeasonInventoryDashboard.tsx`); the surrounding `try/catch`
never fires because every step is total. -/
def classifyRow (row : RecordRow) (src : SourceYearType) (fwYear : Int) : InventoryRow :=
  let raw := parseCSVRow row src
  let seasonInfo := parseSeason (some raw.season) fwYear
  applyFxNormalization raw seasonInfo

/-- The normalization stage of `loadAndNormalizeData` (`utils.ts` lines
313-353), on already-tokenized rows: PY rows first, then CY rows, both
classified against the single `currentFwYear` argument. -/
def loadAndNormalizeRows (pyRows cyRows : List RecordRow) (currentFwYear : Int) :
    List InventoryRow :=
  pyRows.map (fun row => classifyRow row .PY currentFwYear)
    ++ cyRows.map (fun row => classifyRow row .CY currentFwYear)

/-- The normalization stage of the dashboard's `loadData`
(`OffSeasonInventoryDashboard.tsx`, `pyRowsRaw`/`cyRowsRaw` branch): PY rows
are classified against the literal 24 and CY rows against the literal 25;
the component's `currentFwYear` prop (kept here as the unused final
argument) plays no part. -/
def dashboardLoadRows (pyRowsRaw cyRowsRaw : List RecordRow) (currentFwYear : Int) :
    List InventoryRow :=
  pyRowsRaw.map (fun row => classifyRow row .PY 24)
    ++ cyRowsRaw.map (fun row => classifyRow row .CY 25)

/-- The raw record decoded from an empty CSV row object: every string field
`""`, every numeric field `0`, `itemDesc2` null — the decoder's defaults. -/
def blankRaw : InventoryRowRaw :=
  parseCSVRow [] .CY

/-- A raw HK row with monthly gross sales 1000 and net sales 900 (the spec's
discount-rate example). -/
def hkRow1000 : InventoryRowRaw :=
  { blankRaw with country := "HK", grossSalesMonth := 1000, netSalesMonth := 900 }

/-- A raw HK row with monthly gross sales 0 and the given net sales. -/
def hkRowGross0 (net : ℚ) : InventoryRowRaw :=
  { blankRaw with country := "HK", grossSalesMonth := 0, netSalesMonth := net }

/-- The season info of an absent code (type OTHER, in season). -/
def blankSeasonInfo : SeasonInfo :=
  parseSeason none 25

/-- A one-column CSV row object whose `SEASON` cell is `24F`. -/
def season24F : RecordRow :=
  [("SEASON", "24F")]

/-- The nine FX-normalized monetary fields of `r` each equal the matching
raw field of `raw` divided by `d`. -/
def normalizedFieldsAre (r : InventoryRow) (raw : InventoryRowRaw) (d : ℚ) : Prop :=
  r.grossSalesFx = raw.grossSalesMonth / d
  ∧ r.netSalesFx = raw.netSalesMonth / d
  ∧ r.stockPriceFx = raw.stockPriceTag / d
  ∧ r.stockCostFx = raw.stockCost / d
  ∧ r.acSalesGrossFx = raw.acSalesGross / d
  ∧ r.netAcPPFx = raw.netAcPP / d
  ∧ r.acSalesCostFx = raw.acSalesCost / d
  ∧ r.acSalesNetAmountFx = raw.acSalesNetAmount / d
  ∧ r.cogsFx = raw.cogsMonth / d

/-- The nine FX-normalized monetary fields of `r` each equal the matching
raw field of `raw` unchanged. -/
def normalizedFieldsEqualRaw (r : InventoryRow) (raw : InventoryRowRaw) : Prop :=
  r.grossSalesFx = raw.grossSalesMonth
  ∧ r.netSalesFx = raw.netSalesMonth
  ∧ r.stockPriceFx = raw.stockPriceTag
  ∧ r.stockCostFx = raw.stockCost
  ∧ r.acSalesGrossFx = raw.acSalesGross
  ∧ r.netAcPPFx = raw.netAcPP
  ∧ r.acSalesCostFx = raw.acSalesCost
  ∧ r.acSalesNetAmountFx = raw.acSalesNetAmount
  ∧ r.cogsFx = raw.cogsMonth

theorem computeBucket_inSeason (t : SeasonType) (y : Option Int) (Y : Int)
    (h : t ≠ .FW ∨ y = none) : computeBucket t y Y = .InSeason := by
  cases t <;> cases y <;> simp_all [computeBucket]

theorem computeBucket_eq_specBucket (t : SeasonType) (y : Option Int) (Y : Int) :
    computeBucket t y Y =
      (match t, y with
        | .FW, some yy =>
          if 3 ≤ Y - yy then YearBucket.Y3Plus
          else if Y - yy = 2 then .Y2
          else if Y - yy = 1 then .Y1
          else .InSeason
        | _, _ => .InSeason) := by
  cases t <;> cases y
  all_goals try rfl
  simp only [computeBucket]
  split_ifs <;> first | rfl | omega

theorem parseSeason_yearBucket_eq (code : Option String) (Y : Int) :
    (parseSeason code Y).yearBucket =
      computeBucket (parseSeason code Y).seasonType (parseSeason code Y).seasonYear Y := by
  simp only [parseSeason]
  split
  · rfl
  · rfl

theorem isOffSeasonFW_eq_true_iff (info : SeasonInfo) :
    isOffSeasonFW info = true ↔
      info.seasonType = .FW ∧
        (info.yearBucket = .Y1 ∨ info.yearBucket = .Y2 ∨ info.yearBucket = .Y3Plus) := by
  obtain ⟨c, t, y, b⟩ := info
  cases t <;> cases b <;> simp [isOffSeasonFW]

/-- C1 counterexample: the claim's reference definition, read literally,
performs no whitespace trimming, so on the code `"24F "` it reports type
Other and bucket current/in-season while `parseSeason` trims, reports
Fall/Winter and buckets it one-year-past. -/
theorem parseSeason_literal_spec_counterexample :
    (parseSeason (some "24F ") 25).seasonType = .FW
    ∧ (parseSeason (some "24F ") 25).yearBucket = .Y1
    ∧ (parseSeasonSpecLiteral (some "24F ") 25).seasonType = .OTHER
    ∧ (parseSeasonSpecLiteral (some "24F ") 25).yearBucket = .InSeason
    ∧ parseSeason (some "24F ") 25 ≠ parseSeasonSpecLiteral (some "24F ") 25 := by
  decide

/-- C1 (amended): `parseSeason` agrees with the spec's reference definition
on every season code and reference year once the reference definition is
amended to whitespace-trim the code first (and to store the trimmed code);
empty-after-trim behaves as the spec's empty case, and the type, year and
bucket case analysis is exactly the spec's. -/
theorem parseSeason_matches_trimmed_spec (code : Option String) (Y : Int) :
    parseSeason code Y = parseSeasonSpecTrimmed code Y := by
  by_cases h : jsTrim (code.getD "") = ""
  · simp [parseSeason, parseSeasonSpecTrimmed, parseSeasonSpecLiteral, h]
  · simp only [parseSeason, parseSeasonSpecTrimmed, parseSeasonSpecLiteral,
      Option.getD_some, if_neg h]
    exact congrArg _ (computeBucket_eq_specBucket _ _ _)

/-- C2: `isOffSeasonFW` is true exactly on the six
(Fall/Winter, past-season-bucket) combinations — `{FW} × {Y1, Y2, Y3Plus}` —
and false on every other (type, bucket) pair, both on a bare `SeasonInfo`
and on a normalized inventory row. -/
theorem isOffSeasonFW_truth_table :
    (∀ info : SeasonInfo,
        isOffSeasonFW info = true ↔
          info.seasonType = .FW ∧
            (info.yearBucket = .Y1 ∨ info.yearBucket = .Y2 ∨ info.yearBucket = .Y3Plus))
    ∧ (∀ row : InventoryRow,
        isOffSeasonFWRow row = true ↔
          row.seasonInfo.seasonType = .FW ∧
            (row.seasonInfo.yearBucket = .Y1 ∨ row.seasonInfo.yearBucket = .Y2 ∨
              row.seasonInfo.yearBucket = .Y3Plus)) :=
  ⟨fun info => isOffSeasonFW_eq_true_iff info,
   fun row => isOffSeasonFW_eq_true_iff row.seasonInfo⟩

/-- C8: every `SeasonInfo` built by `parseSeason` whose type is not
Fall/Winter or whose year is null carries bucket current/in-season; hence on
`parseSeason` output the off-season predicate holds exactly when the bucket
is not current/in-season. -/
theorem parseSeason_bucket_invariant :
    (∀ (code : Option String) (Y : Int),
        ((parseSeason code Y).seasonType ≠ .FW ∨ (parseSeason code Y).seasonYear = none) →
          (parseSeason code Y).yearBucket = .InSeason)
    ∧ (∀ (code : Option String) (Y : Int),
        isOffSeasonFW (parseSeason code Y) = true ↔
          (parseSeason code Y).yearBucket ≠ .InSeason) := by
  have collapse : ∀ (code : Option String) (Y : Int),
      ((parseSeason code Y).seasonType ≠ .FW ∨ (parseSeason code Y).seasonYear = none) →
        (parseSeason code Y).yearBucket = .InSeason := by
    intro code Y h
    rw [parseSeason_yearBucket_eq]
    exact computeBucket_inSeason _ _ _ h
  refine ⟨collapse, fun code Y => ⟨fun h => ?_, fun h => ?_⟩⟩
  · obtain ⟨-, hb⟩ := (isOffSeasonFW_eq_true_iff _).mp h
    rcases hb with hb | hb | hb <;> simp [hb]
  · refine (isOffSeasonFW_eq_true_iff _).mpr ⟨?_, ?_⟩
    · by_contra ht
      exact h (collapse code Y (Or.inl ht))
    · rcases hb : (parseSeason code Y).yearBucket with - | - | - | -
      · exact absurd hb h
      · exact Or.inl rfl
      · exact Or.inr (Or.inl rfl)
      · exact Or.inr (Or.inr rfl)

/-- C8 witness: the Spring code `24S` has a non-FW type, and its bucket is
indeed current/in-season. -/
theorem parseSeason_bucket_invariant_witness :
    ((parseSeason (some "24S") 25).seasonType ≠ .FW ∨
      (parseSeason (some "24S") 25).seasonYear = none)
    ∧ (parseSeason (some "24S") 25).yearBucket = .InSeason :=
  ⟨by decide, parseSeason_bucket_invariant.1 (some "24S") 25 (by decide)⟩

/-- C3 counterexample: the claim fails on both cited orchestrators.  In
`loadAndNormalizeData` run with reference year 25, the Prior-Year file's
`24F` row is classified against 25 — not against 24 as the claim states —
so it lands in bucket one-year-past and passes the off-season filter.  And
the dashboard's `loadData` ignores its reference-year argument: run with
reference year 99, its Current-Year `24F` row still buckets one-year-past
(the claim would demand three-plus-years-past for diff 75). -/
theorem orchestrator_refyear_counterexample :
    ((loadAndNormalizeRows [season24F] [] 25).map
        (fun r => (r.seasonInfo.yearBucket, isOffSeasonFWRow r)))
      = [(.Y1, true)]
    ∧ ((dashboardLoadRows [] [season24F] 99).map (fun r => r.seasonInfo.yearBucket))
      = [.Y1] := by
  decide

/-- C3 (amended): `loadAndNormalizeData` classifies the Prior-Year and
Current-Year files against the one reference year it receives (a PY and a CY
decode of the same row carry identical season info); only the dashboard's
`loadData` uses two different reference years, and those are the literal
constants 24 (PY) and 25 (CY), unaffected by its `currentFwYear` prop — so
for the prop's only actual value 25, a `24F` Prior-Year row is bucketed
current/in-season, the same code in the Current-Year file is bucketed
one-year-past, and only the Current-Year row passes the off-season filter. -/
theorem orchestrator_reference_years :
    (∀ (row : RecordRow) (Y : Int),
        (classifyRow row .PY Y).seasonInfo = (classifyRow row .CY Y).seasonInfo)
    ∧ (∀ (py cy : List RecordRow) (Y : Int),
        loadAndNormalizeRows py cy Y
          = py.map (fun r => classifyRow r .PY Y) ++ cy.map (fun r => classifyRow r .CY Y))
    ∧ (∀ (py cy : List RecordRow) (Y Y' : Int),
        dashboardLoadRows py cy Y = dashboardLoadRows py cy Y')
    ∧ (∀ (py cy : List RecordRow) (Y : Int),
        dashboardLoadRows py cy Y
          = py.map (fun r => classifyRow r .PY 24) ++ cy.map (fun r => classifyRow r .CY 25))
    ∧ ((dashboardLoadRows [season24F] [season24F] 25).map
        (fun r => (r.sourceYearType, r.seasonInfo.yearBucket, isOffSeasonFWRow r)))
      = [(.PY, .InSeason, false), (.CY, .Y1, true)] :=
  ⟨fun _ _ => rfl, fun _ _ _ => rfl, fun _ _ _ _ => rfl, fun _ _ _ => rfl, by decide⟩

/-- C9: FX normalization only adds fields: the embedded raw record of the
result is the input raw record — every one of its fields unchanged — and
the attached season info is the one supplied; the only other fields an
`InventoryRow` has are the FX rate, the nine normalized amounts, and the
discount rate. -/
theorem applyFxNormalization_preserves_raw (raw : InventoryRowRaw) (si : SeasonInfo) :
    (applyFxNormalization raw si).toInventoryRowRaw = raw
    ∧ (applyFxNormalization raw si).period = raw.period
    ∧ (applyFxNormalization raw si).country = raw.country
    ∧ (applyFxNormalization raw si).exRate = raw.exRate
    ∧ (applyFxNormalization raw si).itemCode = raw.itemCode
    ∧ (applyFxNormalization raw si).itemDesc1 = raw.itemDesc1
    ∧ (applyFxNormalization raw si).itemDesc2 = raw.itemDesc2
    ∧ (applyFxNormalization raw si).storeCode = raw.storeCode
    ∧ (applyFxNormalization raw si).storeName = raw.storeName
    ∧ (applyFxNormalization raw si).salesDiv = raw.salesDiv
    ∧ (applyFxNormalization raw si).season = raw.season
    ∧ (applyFxNormalization raw si).brand = raw.brand
    ∧ (applyFxNormalization raw si).brandName = raw.brandName
    ∧ (applyFxNormalization raw si).category = raw.category
    ∧ (applyFxNormalization raw si).categoryName = raw.categoryName
    ∧ (applyFxNormalization raw si).subcategory = raw.subcategory
    ∧ (applyFxNormalization raw si).subcategoryName = raw.subcategoryName
    ∧ (applyFxNormalization raw si).salesQty = raw.salesQty
    ∧ (applyFxNormalization raw si).acSalesQty = raw.acSalesQty
    ∧ (applyFxNormalization raw si).stockQty = raw.stockQty
    ∧ (applyFxNormalization raw si).netAcPC = raw.netAcPC
    ∧ (applyFxNormalization raw si).netAcPP = raw.netAcPP
    ∧ (applyFxNormalization raw si).acSalesCost = raw.acSalesCost
    ∧ (applyFxNormalization raw si).acSalesNetAmount = raw.acSalesNetAmount
    ∧ (applyFxNormalization raw si).acSalesGross = raw.acSalesGross
    ∧ (applyFxNormalization raw si).grossSalesMonth = raw.grossSalesMonth
    ∧ (applyFxNormalization raw si).netSalesMonth = raw.netSalesMonth
    ∧ (applyFxNormalization raw si).cogsMonth = raw.cogsMonth
    ∧ (applyFxNormalization raw si).stockCost = raw.stockCost
    ∧ (applyFxNormalization raw si).stockPriceTag = raw.stockPriceTag
    ∧ (applyFxNormalization raw si).sourceYearType = raw.sourceYearType
    ∧ (applyFxNormalization raw si).seasonInfo = si :=
  ⟨rfl, rfl, rfl, rfl, rfl, rfl, rfl, rfl, rfl, rfl, rfl, rfl, rfl, rfl, rfl, rfl, rfl,
   rfl, rfl, rfl, rfl, rfl, rfl, rfl, rfl, rfl, rfl, rfl, rfl, rfl, rfl, rfl⟩

/-- C10: the graph normalizer's season info is `parseSeason` of the
`Season_Code` against reference year 24 exactly when the first two
characters of `Period` `parseInt` to 24, and against 25 for every other
`Period`; replacing the `Year` column never changes it. -/
theorem normalizeGraphDataRow_refyear (raw : GraphDataRowRaw) :
    (normalizeGraphDataRow raw).seasonInfo
      = parseSeason (some raw.Season_Code)
          (if jsParseInt (jsTake2 raw.Period) = some 24 then 24 else 25)
    ∧ (∀ y : String,
        (normalizeGraphDataRow { raw with Year := y }).seasonInfo
          = (normalizeGraphDataRow raw).seasonInfo) :=
  ⟨rfl, fun _ => rfl⟩

theorem applyFxValue_eq_div (c : String) (v : ℚ) :
    applyFxValue c (fxRateFor c) v = v / fxRateFor c := by
  unfold applyFxValue fxRateFor
  split_ifs <;> simp

theorem applyFxValue_default (c : String) (v : ℚ)
    (h1 : c ≠ "HK") (h2 : c ≠ "MC") (h3 : c ≠ "TW") :
    applyFxValue c (fxRateFor c) v = v := by
  simp [applyFxValue, fxRateFor, h1, h2, h3]

/-- C4: the FX rate resolves by the fixed country table (HK 1, MC 1.03,
TW 4.02, default 1); every one of the nine normalized fields is the raw
value divided by that rate; and per country: an HK row and a row of any
unrecognized country keep every monetary field unchanged, an MC row divides
each by 1.03, a TW row divides each by 4.02. -/
theorem applyFxNormalization_rate_table (raw : InventoryRowRaw) (si : SeasonInfo) :
    (applyFxNormalization raw si).fxRate
        = (if raw.country = "HK" then 1
           else if raw.country = "MC" then 1.03
           else if raw.country = "TW" then 4.02
           else 1)
    ∧ normalizedFieldsAre (applyFxNormalization raw si) raw (applyFxNormalization raw si).fxRate
    ∧ normalizedFieldsEqualRaw (applyFxNormalization { raw with country := "HK" } si)
        { raw with country := "HK" }
    ∧ (raw.country ≠ "HK" → raw.country ≠ "MC" → raw.country ≠ "TW" →
        normalizedFieldsEqualRaw (applyFxNormalization raw si) raw)
    ∧ normalizedFieldsAre (applyFxNormalization { raw with country := "MC" } si)
        { raw with country := "MC" } 1.03
    ∧ normalizedFieldsAre (applyFxNormalization { raw with country := "TW" } si)
        { raw with country := "TW" } 4.02 := by
  refine ⟨rfl, ?_, ?_, ?_, ?_, ?_⟩
  · exact ⟨applyFxValue_eq_div _ _, applyFxValue_eq_div _ _, applyFxValue_eq_div _ _,
      applyFxValue_eq_div _ _, applyFxValue_eq_div _ _, applyFxValue_eq_div _ _,
      applyFxValue_eq_div _ _, applyFxValue_eq_div _ _, applyFxValue_eq_div _ _⟩
  · exact ⟨rfl, rfl, rfl, rfl, rfl, rfl, rfl, rfl, rfl⟩
  · intro h1 h2 h3
    exact ⟨applyFxValue_default _ _ h1 h2 h3, applyFxValue_default _ _ h1 h2 h3,
      applyFxValue_default _ _ h1 h2 h3, applyFxValue_default _ _ h1 h2 h3,
      applyFxValue_default _ _ h1 h2 h3, applyFxValue_default _ _ h1 h2 h3,
      applyFxValue_default _ _ h1 h2 h3, applyFxValue_default _ _ h1 h2 h3,
      applyFxValue_default _ _ h1 h2 h3⟩
  · exact ⟨rfl, rfl, rfl, rfl, rfl, rfl, rfl, rfl, rfl⟩
  · exact ⟨rfl, rfl, rfl, rfl, rfl, rfl, rfl, rfl, rfl⟩

/-- C4 witness: a `JP` row is none of HK/MC/TW, and its normalized fields
all equal the raw ones. -/
theorem applyFxNormalization_rate_table_witness :
    ({ blankRaw with country := "JP" } : InventoryRowRaw).country ≠ "HK"
    ∧ ({ blankRaw with country := "JP" } : InventoryRowRaw).country ≠ "MC"
    ∧ ({ blankRaw with country := "JP" } : InventoryRowRaw).country ≠ "TW"
    ∧ normalizedFieldsEqualRaw
        (applyFxNormalization { blankRaw with country := "JP" } blankSeasonInfo)
        { blankRaw with country := "JP" } :=
  ⟨by decide, by decide, by decide,
    (applyFxNormalization_rate_table { blankRaw with country := "JP" } blankSeasonInfo).2.2.2.1
      (by decide) (by decide) (by decide)⟩

/-- C5: on both normalizers the derived discount rate is
`1 - net / gross` exactly when the normalized gross is strictly positive and
null whenever it is zero or negative; gross 1000 and net 900 give 1/10, and
gross 0 gives null for every net. -/
theorem discountRate_null_policy :
    (∀ (raw : InventoryRowRaw) (si : SeasonInfo),
        0 < (applyFxNormalization raw si).grossSalesFx →
          (applyFxNormalization raw si).discountRateMonth
            = some (1 - (applyFxNormalization raw si).netSalesFx /
                (applyFxNormalization raw si).grossSalesFx))
    ∧ (∀ (raw : InventoryRowRaw) (si : SeasonInfo),
        (applyFxNormalization raw si).grossSalesFx ≤ 0 →
          (applyFxNormalization raw si).discountRateMonth = none)
    ∧ (∀ g : GraphDataRowRaw,
        0 < (normalizeGraphDataRow g).grossSalesFx →
          (normalizeGraphDataRow g).discountRate
            = some (1 - (normalizeGraphDataRow g).netSalesFx /
                (normalizeGraphDataRow g).grossSalesFx))
    ∧ (∀ g : GraphDataRowRaw,
        (normalizeGraphDataRow g).grossSalesFx ≤ 0 →
          (normalizeGraphDataRow g).discountRate = none)
    ∧ (applyFxNormalization hkRow1000 blankSeasonInfo).discountRateMonth = some (1/10)
    ∧ (∀ net : ℚ,
        (applyFxNormalization (hkRowGross0 net) blankSeasonInfo).discountRateMonth = none) := by
  have inv1 : ∀ (raw : InventoryRowRaw) (si : SeasonInfo),
      0 < (applyFxNormalization raw si).grossSalesFx →
        (applyFxNormalization raw si).discountRateMonth
          = some (1 - (applyFxNormalization raw si).netSalesFx /
              (applyFxNormalization raw si).grossSalesFx) := by
    intro raw si h
    have e : (applyFxNormalization raw si).discountRateMonth
        = if 0 < (applyFxNormalization raw si).grossSalesFx then
            some (1 - (applyFxNormalization raw si).netSalesFx /
              (applyFxNormalization raw si).grossSalesFx)
          else none := rfl
    rw [e, if_pos h]
  have inv2 : ∀ (raw : InventoryRowRaw) (si : SeasonInfo),
      (applyFxNormalization raw si).grossSalesFx ≤ 0 →
        (applyFxNormalization raw si).discountRateMonth = none := by
    intro raw si h
    have e : (applyFxNormalization raw si).discountRateMonth
        = if 0 < (applyFxNormalization raw si).grossSalesFx then
            some (1 - (applyFxNormalization raw si).netSalesFx /
              (applyFxNormalization raw si).grossSalesFx)
          else none := rfl
    rw [e, if_neg (not_lt.mpr h)]
  have g1 : ∀ g : GraphDataRowRaw,
      0 < (normalizeGraphDataRow g).grossSalesFx →
        (normalizeGraphDataRow g).discountRate
          = some (1 - (normalizeGraphDataRow g).netSalesFx /
              (normalizeGraphDataRow g).grossSalesFx) := by
    intro g h
    have e : (normalizeGraphDataRow g).discountRate
        = if 0 < (normalizeGraphDataRow g).grossSalesFx then
            some (1 - (normalizeGraphDataRow g).netSalesFx /
              (normalizeGraphDataRow g).grossSalesFx)
          else none := rfl
    rw [e, if_pos h]
  have g2 : ∀ g : GraphDataRowRaw,
      (normalizeGraphDataRow g).grossSalesFx ≤ 0 →
        (normalizeGraphDataRow g).discountRate = none := by
    intro g h
    have e : (normalizeGraphDataRow g).discountRate
        = if 0 < (normalizeGraphDataRow g).grossSalesFx then
            some (1 - (normalizeGraphDataRow g).netSalesFx /
              (normalizeGraphDataRow g).grossSalesFx)
          else none := rfl
    rw [e, if_neg (not_lt.mpr h)]
  refine ⟨inv1, inv2, g1, g2, ?_, ?_⟩
  · rw [inv1 hkRow1000 blankSeasonInfo (by decide)]
    have hg : (applyFxNormalization hkRow1000 blankSeasonInfo).grossSalesFx = 1000 := by decide
    have hn : (applyFxNormalization hkRow1000 blankSeasonInfo).netSalesFx = 900 := by decide
    rw [hg, hn]
    norm_num
  · intro net
    have hg : (applyFxNormalization (hkRowGross0 net) blankSeasonInfo).grossSalesFx = 0 := rfl
    exact inv2 _ _ (le_of_eq hg)

/-- C5 witness: the HK 1000/900 row has positive normalized gross and
carries the formula's discount rate; the gross-0 row (net 5) has
non-positive normalized gross and a null discount rate. -/
theorem discountRate_null_policy_witness :
    (0 : ℚ) < (applyFxNormalization hkRow1000 blankSeasonInfo).grossSalesFx
    ∧ (applyFxNormalization hkRow1000 blankSeasonInfo).discountRateMonth
        = some (1 - (applyFxNormalization hkRow1000 blankSeasonInfo).netSalesFx /
            (applyFxNormalization hkRow1000 blankSeasonInfo).grossSalesFx)
    ∧ (applyFxNormalization (hkRowGross0 5) blankSeasonInfo).grossSalesFx ≤ 0
    ∧ (applyFxNormalization (hkRowGross0 5) blankSeasonInfo).discountRateMonth = none :=
  ⟨by decide, discountRate_null_policy.1 hkRow1000 blankSeasonInfo (by decide),
   by decide, discountRate_null_policy.2.1 (hkRowGross0 5) blankSeasonInfo (by decide)⟩

theorem csvDataRows_cons (headers : List String) (l : String) (ls : List String) :
    csvDataRows headers (l :: ls)
      = if jsTrim l = "" then csvDataRows headers ls
        else if (headers.length : Int) - 1 ≤ ((parseCSVLine (jsTrim l)).length : Int)
        then buildRow headers (parseCSVLine (jsTrim l)) :: csvDataRows headers ls
        else csvDataRows headers ls := by
  simp only [csvDataRows, List.filterMap_cons]
  split_ifs with h1 h2 <;> rfl

/-- C6: the data-row stage keeps exactly the non-blank lines whose tokenized
field count is at least the header count minus one (an `Int` comparison, as
in JS), in order, each row built by zipping headers to values positionally;
the built row's keys are exactly the headers (extra values are discarded),
and the value under the `i`-th header is the `i`-th field or `""` when the
row is short.  Dropped rows simply produce no output — the stage has no
error channel. -/
theorem csvDataRows_acceptance :
    (∀ (headers lines : List String),
        csvDataRows headers lines
          = ((lines.map jsTrim).filter
              (fun t => !(t == "") &&
                decide ((headers.length : Int) - 1 ≤ ((parseCSVLine t).length : Int)))).map
              (fun t => buildRow headers (parseCSVLine t)))
    ∧ (∀ (headers values : List String), (buildRow headers values).map Prod.fst = headers)
    ∧ (∀ (headers values : List String) (i : Nat), i < headers.length →
        (buildRow headers values)[i]? = some (headers.getD i "", values.getD i "")) := by
  refine ⟨?_, ?_, ?_⟩
  · intro headers lines
    induction lines with
    | nil => rfl
    | cons l ls ih =>
      rw [csvDataRows_cons, ih, List.map_cons]
      by_cases h1 : jsTrim l = ""
      · rw [if_pos h1, List.filter_cons_of_neg (by simp [h1])]
      · by_cases h2 : (headers.length : Int) - 1 ≤ ((parseCSVLine (jsTrim l)).length : Int)
        · rw [if_neg h1, if_pos h2,
            List.filter_cons_of_pos (by rw [decide_eq_true h2]; simp [h1]), List.map_cons]
        · rw [if_neg h1, if_neg h2,
            List.filter_cons_of_neg
              (by rw [decide_eq_false h2, Bool.and_false]; exact Bool.false_ne_true)]
  · intro headers values
    induction headers generalizing values with
    | nil => rfl
    | cons h hs ih =>
      cases values with
      | nil => simp [buildRow, ih []]
      | cons v vs => simp [buildRow, ih vs]
  · intro headers values i hi
    induction headers generalizing values i with
    | nil => simp at hi
    | cons h hs ih =>
      cases i with
      | zero => cases values <;> simp [buildRow]
      | succ n =>
        cases values with
        | nil =>
          have := ih [] n (Nat.lt_of_succ_lt_succ hi)
          simpa [buildRow] using this
        | cons v vs =>
          have := ih vs n (Nat.lt_of_succ_lt_succ hi)
          simpa [buildRow] using this

/-- C6 witness: with headers `A, B` and the single-field row `x`, position 1
is in header range and maps header `B` to the empty string. -/
theorem csvDataRows_acceptance_witness :
    (1 : Nat) < (["A", "B"] : List String).length
    ∧ (buildRow ["A", "B"] ["x"])[1]? = some ("B", "") :=
  ⟨by decide, csvDataRows_acceptance.2.2 ["A", "B"] ["x"] 1 (by decide)⟩

/-- C7: `parseNumber` is total (it is a function into ℚ — there is no error
outcome); null and empty input give 0, any input whose cleaned form does not
parse as a float gives 0, any other input gives the parsed value of its
cleaned form (commas and all whitespace stripped); `"1,234.5"` gives 1234.5
and `"  12 34 "` gives 1234. -/
theorem parseNumber_total_behavior :
    parseNumber none = 0
    ∧ parseNumber (some "") = 0
    ∧ (∀ s : String, parseFloatQ (cleanNumeric s) = none → parseNumber (some s) = 0)
    ∧ (∀ (s : String) (q : ℚ), s ≠ "" → parseFloatQ (cleanNumeric s) = some q →
        parseNumber (some s) = q)
    ∧ parseNumber (some "1,234.5") = 2469/2
    ∧ parseNumber (some "  12 34 ") = 1234 := by
  refine ⟨rfl, rfl, ?_, ?_, ?_, ?_⟩
  · intro s h
    by_cases hs : s = ""
    · subst hs; rfl
    · simp [parseNumber, hs, h]
  · intro s q hs h
    simp [parseNumber, hs, h]
  · have h1 : cleanNumeric "1,234.5" = "1234.5" := by decide
    have h2 : parseFloatParts "1234.5".data = some (12345, 1, 0) := by decide
    simp [parseNumber, parseFloatQ, h1, h2]
    norm_num
  · have h1 : cleanNumeric "  12 34 " = "1234" := by decide
    have h2 : parseFloatParts "1234".data = some (1234, 0, 0) := by decide
    simp [parseNumber, parseFloatQ, h1, h2]

/-- C7 witness: `"abc"` cleans to a non-numeric string and parses to 0. -/
theorem parseNumber_total_behavior_witness :
    parseFloatQ (cleanNumeric "abc") = none ∧ parseNumber (some "abc") = 0 :=
  ⟨by decide, parseNumber_total_behavior.2.2.1 "abc" (by decide)⟩

end PastSeason
